import Mathlib

/-!
Shallow embedding of the strawberry-py access-control engine.

Embedded from the source:
* `src/pie/acl/__init__.py` — `map_member_to_ACLevel`, `acl2_function`,
  `get_true_ACLevel`, `can_invoke_command`;
* `src/modules/base/acl/module.py` — the `acl default add` administrative flow
  (`acl_default_add`).

The repository modules `pie/acl/database.py` (the `ACLevel` enumeration and the
override-store tables) and `pie/exceptions.py` (the typed ACL denials) are not
present under `src/`; the definitions that stand for them are modelled from the
spec and carry a doc comment saying so.  The external `ring.lru(expire=10)`
cache wrapped around `map_member_to_ACLevel` is likewise modelled from the
spec (`cachedResolve`).
-/

namespace Pie

/-- Modelled from the spec: the permission-level enumeration `ACLevel` of
`pie/acl/database.py` (absent from `src/`).  Spec section 3 gives the total
order `EVERYONE < MEMBER < SUBMOD < MOD < ADMIN < GUILD_OWNER < BOT_OWNER`
plus a sentinel `UNKNOWN` excluded from assignable defaults. -/
inductive ACLevel where
  | UNKNOWN
  | EVERYONE
  | MEMBER
  | SUBMOD
  | MOD
  | ADMIN
  | GUILD_OWNER
  | BOT_OWNER
deriving DecidableEq, Repr

/-- Modelled from the spec: the rank index realising the declared total order
(the source enumeration is an integer enum compared by value, with `UNKNOWN`
as the sentinel below every assignable level). -/
def ACLevel.rank : ACLevel → Int
  | .UNKNOWN => -1
  | .EVERYONE => 0
  | .MEMBER => 1
  | .SUBMOD => 2
  | .MOD => 3
  | .ADMIN => 4
  | .GUILD_OWNER => 5
  | .BOT_OWNER => 6

instance : LE ACLevel := LE.mk (fun a b => a.rank ≤ b.rank)

instance : LT ACLevel := LT.mk (fun a b => a.rank < b.rank)

instance (a b : ACLevel) : Decidable (a ≤ b) :=
  inferInstanceAs (Decidable (a.rank ≤ b.rank))

instance (a b : ACLevel) : Decidable (a < b) :=
  inferInstanceAs (Decidable (a.rank < b.rank))

/-- Modelled from the spec: name lookup `ACLevel[name]` (case-sensitive exact
match; section 4.1 `from_name`).  Returns `none` for a name that is not in the
enumeration — the source raises `KeyError` there. -/
def ACLevel.fromName : String → Option ACLevel
  | "UNKNOWN" => some .UNKNOWN
  | "EVERYONE" => some .EVERYONE
  | "MEMBER" => some .MEMBER
  | "SUBMOD" => some .SUBMOD
  | "MOD" => some .MOD
  | "ADMIN" => some .ADMIN
  | "GUILD_OWNER" => some .GUILD_OWNER
  | "BOT_OWNER" => some .BOT_OWNER
  | _ => none

/-- Modelled from the spec: the typed ACL denials of `pie/exceptions.py`
(absent from `src/`): `NegativeUserOverwrite`, `NegativeChannelOverwrite`,
`NegativeRoleOverwrite` and `InsufficientACLevel` (carrying required and
actual level), all subclasses of `ACLFailure`. -/
inductive ACLFailure where
  | negativeUserOverwrite
  | negativeChannelOverwrite (channel_id : Nat)
  | negativeRoleOverwrite (role_id : Nat)
  | insufficientACLevel (required : ACLevel) (actual : ACLevel)
deriving DecidableEq, Repr

/-- A guild role.  Only the identifier is relevant to the ACL engine. -/
structure Role where
  id : Nat
deriving DecidableEq, Repr

/-- A guild, with its owner's identifier (source: `guild.owner.id`). -/
structure Guild where
  id : Nat
  owner_id : Nat
deriving DecidableEq, Repr

/-- A guild member: identifier, the role list as the platform hands it over,
and the guild the member belongs to (source: `member.guild`).  The platform
(discord) lists `member.roles` from lowest priority to highest, with the
default everyone role first. -/
structure Member where
  id : Nat
  roles : List Role
  guild : Guild

/-- A channel.  Only the identifier is relevant to the ACL engine. -/
structure Channel where
  id : Nat
deriving DecidableEq, Repr

/-- The bot instance: its owner-identifier set (source: `bot.owner_ids`), the
registered command names (source: `bot.get_all_commands()`), and the
source-declared baseline level per command (source:
`get_hardcoded_ACLevel(bot.get_command(name).callback)`, `none` when the
source carries no `acl2` decorator). -/
structure Bot where
  owner_ids : List Nat
  commands : List String
  hardcoded : String → Option ACLevel

/-- Modelled from the spec: a snapshot of the Override Store of
`pie/acl/database.py` (absent from `src/`).  Each table supports
`get(scope_key) -> Override | none` with at most one row per key, so a table
is a function from its key to the stored payload: the level for
`ACDefault` and `ACLevelMappping`, the `allow` flag for the three overwrite
kinds. -/
structure ACLState where
  acdefault : Nat → String → Option ACLevel
  userOverwrite : Nat → Nat → String → Option Bool
  channelOverwrite : Nat → Nat → String → Option Bool
  roleOverwrite : Nat → Nat → String → Option Bool
  levelMapping : Nat → Nat → Option ACLevel

/-- The role-mapping loop of `map_member_to_ACLevel`
(`src/pie/acl/__init__.py` lines 72-80): starting from `EVERYONE`, take the
level of the first role in the given list that has an `ACLevelMappping` entry
and stop there. -/
def roleMappingLoop (st : ACLState) (guildId : Nat) : List Role → ACLevel
  | [] => ACLevel.EVERYONE
  | r :: rs =>
    match st.levelMapping guildId r.id with
    | some l => l
    | none => roleMappingLoop st guildId rs

/-- `map_member_to_ACLevel` (`src/pie/acl/__init__.py` lines 38-82) without
the `ring.lru` cache layer (modelled separately as `cachedResolve`): bot owner
first, then guild owner, then the first mapped role iterating
`member.roles[::-1]` (highest platform priority first), else `EVERYONE`. -/
def map_member_to_ACLevel (st : ACLState) (bot : Bot) (member : Member) : ACLevel :=
  if member.id ∈ bot.owner_ids then ACLevel.BOT_OWNER
  else if member.id = member.guild.owner_id then ACLevel.GUILD_OWNER
  else roleMappingLoop st member.guild.id member.roles.reverse

/-- The role-overwrite loop of `acl2_function`
(`src/pie/acl/__init__.py` lines 213-219): iterate `invoker.roles` in list
order; the first role with a `RoleOverwrite` row decides (allow, or raise
`NegativeRoleOverwrite`); with no match fall through to the level
comparison (`fallback`). -/
def roleOverwriteStep (st : ACLState) (guildId : Nat) (command : String)
    (fallback : Except ACLFailure Bool) : List Role → Except ACLFailure Bool
  | [] => fallback
  | r :: rs =>
    match st.roleOverwrite guildId r.id command with
    | some allow =>
      if allow then Except.ok true else Except.error (ACLFailure.negativeRoleOverwrite r.id)
    | none => roleOverwriteStep st guildId command fallback rs

/-- `acl2_function` (`src/pie/acl/__init__.py` lines 159-231).  The source
returns `True` or raises a subclass of `ACLFailure`; here that is
`Except ACLFailure Bool`.  Channel is consulted only after the guild is known
to be present, mirroring the source where `channel` defaults to `None` only
in direct-message contexts. -/
def acl2_function (st : ACLState) (level : ACLevel) (bot : Bot) (invoker : Member)
    (command : String) (guild : Option Guild) (channel : Channel) :
    Except ACLFailure Bool :=
  match guild with
  | none => Except.ok true
  | some guild =>
    let member_level := map_member_to_ACLevel st bot invoker
    if member_level = ACLevel.BOT_OWNER then Except.ok true
    else
      let level :=
        match st.acdefault guild.id command with
        | some custom => custom
        | none => level
      match st.userOverwrite guild.id invoker.id command with
      | some allow =>
        if allow then Except.ok true else Except.error ACLFailure.negativeUserOverwrite
      | none =>
        match st.channelOverwrite guild.id channel.id command with
        | some allow =>
          if allow then Except.ok true
          else Except.error (ACLFailure.negativeChannelOverwrite channel.id)
        | none =>
          roleOverwriteStep st guild.id command
            (if level ≤ member_level then Except.ok true
             else Except.error (ACLFailure.insufficientACLevel level member_level))
            invoker.roles

/-- `get_true_ACLevel` (`src/pie/acl/__init__.py` lines 247-257): the
`ACDefault` override level when present, else the hardcoded source-declared
level. -/
def get_true_ACLevel (st : ACLState) (bot : Bot) (guildId : Nat) (command : String) :
    Option ACLevel :=
  match st.acdefault guildId command with
  | some custom => some custom
  | none => bot.hardcoded command

/-- Success test on the engine's outcome: the `try/except ACLFailure` of
`can_invoke_command`. -/
def isOk : Except ACLFailure Bool → Bool
  | Except.ok _ => true
  | Except.error _ => false

/-- `can_invoke_command` (`src/pie/acl/__init__.py` lines 260-285): `none`
for direct-message contexts; `some false` when the command has no effective
level; else `some true` iff `acl2_function` succeeds. -/
def can_invoke_command (st : ACLState) (bot : Bot) (guild : Option Guild)
    (invoker : Member) (channel : Channel) (command : String) : Option Bool :=
  match guild with
  | none => none
  | some g =>
    match get_true_ACLevel st bot g.id command with
    | none => some false
    | some lvl =>
      some (isOk (acl2_function st lvl bot invoker command (some g) channel))

/-- The reply outcome of the `acl default add` flow, one constructor per
early-return branch of `acl_default_add` in
`src/modules/base/acl/module.py`. -/
inductive DefaultAddResult where
  | invalidLevel
  | unknownCommand
  | notACLControlled
  | cannotInvoke
  | levelTooHigh
  | duplicate
  | added
deriving DecidableEq, Repr

/-- Insertion into the `ACDefault` table (the non-conflicting case of
`ACDefault.add`). -/
def setDefault (st : ACLState) (guildId : Nat) (command : String) (level : ACLevel) :
    ACLState :=
  ACLState.mk
    (fun g c => if g = guildId ∧ c = command then some level else st.acdefault g c)
    st.userOverwrite st.channelOverwrite st.roleOverwrite st.levelMapping

/-- `acl_default_add` (`src/modules/base/acl/module.py` lines 186-249), as a
pure function from the store snapshot and the invocation context to the reply
outcome and the resulting store.  `ACDefault.add` (absent from `src/`) is
modelled from the spec: `none` on a duplicate key, insert otherwise.  The
source checks, in order: level-name validity (with `UNKNOWN` re-raised as
invalid), command registration, ACL controllability, `can_invoke_command`
(whose `None`/`False` are both refused by `if not ...`), the command's
effective level against the author's resolved level, and finally the
duplicate-key conflict. -/
def acl_default_add (st : ACLState) (bot : Bot) (author : Member) (guild : Guild)
    (channel : Channel) (command : String) (levelName : String) :
    DefaultAddResult × ACLState :=
  match ACLevel.fromName levelName with
  | none => (DefaultAddResult.invalidLevel, st)
  | some level =>
    if level = ACLevel.UNKNOWN then (DefaultAddResult.invalidLevel, st)
    else if command ∈ bot.commands then
      match get_true_ACLevel st bot guild.id command with
      | none => (DefaultAddResult.notACLControlled, st)
      | some command_level =>
        if can_invoke_command st bot (some guild) author channel command = some true then
          if map_member_to_ACLevel st bot author < command_level then
            (DefaultAddResult.levelTooHigh, st)
          else
            match st.acdefault guild.id command with
            | some _ => (DefaultAddResult.duplicate, st)
            | none => (DefaultAddResult.added, setDefault st guild.id command level)
        else (DefaultAddResult.cannotInvoke, st)
    else (DefaultAddResult.unknownCommand, st)

/-- A cache entry of the resolved-level cache: the cached level and the time
it was stored. -/
structure CacheEntry where
  value : ACLevel
  storedAt : Nat
deriving DecidableEq, Repr

/-- Modelled from the spec: the `ring.lru(expire=10)` layer wrapped around
`map_member_to_ACLevel` (`src/pie/acl/__init__.py` line 38; the `ring`
library itself is external).  Shown for a single (bot-instance, actor-id)
cache key, with an explicit clock: a lookup within 10 seconds of the stored
entry returns the cached level unchanged; an expired or absent entry is
recomputed from the current store and stored with the current time. -/
def cachedResolve (st : ACLState) (bot : Bot) (member : Member)
    (cache : Option CacheEntry) (now : Nat) : ACLevel × CacheEntry :=
  match cache with
  | some entry =>
    if now < entry.storedAt + 10 then (entry.value, entry)
    else
      let fresh := map_member_to_ACLevel st bot member
      (fresh, CacheEntry.mk fresh now)
  | none =>
    let fresh := map_member_to_ACLevel st bot member
    (fresh, CacheEntry.mk fresh now)

/-! Concrete fixtures used by witnesses and counterexamples. -/

/-- A store snapshot with every table empty. -/
def emptyStores : ACLState :=
  ACLState.mk (fun _ _ => none) (fun _ _ _ => none) (fun _ _ _ => none)
    (fun _ _ _ => none) (fun _ _ => none)

/-- Fixture guild: id 1, owned by actor 10. -/
def guildA : Guild := Guild.mk 1 10

/-- Fixture channel with id 5. -/
def chanA : Channel := Channel.mk 5

/-- Fixture bot for the `acl default add` flow: owner 99, one registered
command `ping` hardcoded to `EVERYONE`. -/
def botPing : Bot :=
  Bot.mk [99] ["ping"] (fun c => if c = "ping" then some ACLevel.EVERYONE else none)

/-- Fixture member: the owner of `guildA`, holding no roles. -/
def guildOwnerMember : Member := Member.mk 10 [] guildA

/-- Fixture bot for the privilege-guard scenario: owner 99, one registered
command `kick` hardcoded to `ADMIN`. -/
def botKick : Bot :=
  Bot.mk [99] ["kick"] (fun c => if c = "kick" then some ACLevel.ADMIN else none)

/-- Fixture member: an ordinary member of `guildA` holding role 7. -/
def adminMember : Member := Member.mk 20 [Role.mk 7] guildA

/-- Fixture store: role 7 of guild 1 is mapped to `ADMIN`; everything else is
empty. -/
def adminMappingStore : ACLState :=
  ACLState.mk (fun _ _ => none) (fun _ _ _ => none) (fun _ _ _ => none)
    (fun _ _ _ => none)
    (fun g r => if g = 1 ∧ r = 7 then some ACLevel.ADMIN else none)

/-! Helper lemmas about the two role-iteration loops. -/

theorem ACLevel.le_of_not_lt {a b : ACLevel} (h : ¬ a < b) : b ≤ a :=
  Int.not_lt.mp h

theorem roleOverwriteStep_of_no_match (st : ACLState) (guildId : Nat) (command : String)
    (fallback : Except ACLFailure Bool) (roles : List Role)
    (h : ∀ r ∈ roles, st.roleOverwrite guildId r.id command = none) :
    roleOverwriteStep st guildId command fallback roles = fallback := by
  induction roles with
  | nil => rfl
  | cons r rs ih =>
    have hr : st.roleOverwrite guildId r.id command = none := h r (by simp)
    have hrs : ∀ x ∈ rs, st.roleOverwrite guildId x.id command = none := by
      intro x hx
      exact h x (by simp [hx])
    simp [roleOverwriteStep, hr, ih hrs]

theorem roleOverwriteStep_eq_findSome (st : ACLState) (guildId : Nat) (command : String)
    (fallback : Except ACLFailure Bool) (roles : List Role) :
    roleOverwriteStep st guildId command fallback roles =
      match roles.findSome?
          (fun r => (st.roleOverwrite guildId r.id command).map (fun a => (r.id, a))) with
      | some p =>
        if p.2 then Except.ok true else Except.error (ACLFailure.negativeRoleOverwrite p.1)
      | none => fallback := by
  induction roles with
  | nil => rfl
  | cons r rs ih =>
    cases h : st.roleOverwrite guildId r.id command with
    | none => simpa [roleOverwriteStep, List.findSome?, h] using ih
    | some allow => simp [roleOverwriteStep, List.findSome?, h]

theorem roleMappingLoop_eq_findSome (st : ACLState) (guildId : Nat) (roles : List Role) :
    roleMappingLoop st guildId roles =
      (roles.findSome? (fun r => st.levelMapping guildId r.id)).getD ACLevel.EVERYONE := by
  induction roles with
  | nil => rfl
  | cons r rs ih =>
    cases h : st.levelMapping guildId r.id with
    | none => simpa [roleMappingLoop, List.findSome?, h] using ih
    | some l => simp [roleMappingLoop, List.findSome?, h]

/-- With a non-`BOT_OWNER` actor and no matching user, channel or role
overwrite, `acl2_function` reduces to the level comparison against the
possibly-overridden required level. -/
theorem acl2_function_no_overwrites (st : ACLState) (level : ACLevel) (bot : Bot)
    (invoker : Member) (command : String) (guild : Guild) (channel : Channel)
    (hlvl : map_member_to_ACLevel st bot invoker ≠ ACLevel.BOT_OWNER)
    (huo : st.userOverwrite guild.id invoker.id command = none)
    (hco : st.channelOverwrite guild.id channel.id command = none)
    (hro : ∀ r ∈ invoker.roles, st.roleOverwrite guild.id r.id command = none) :
    acl2_function st level bot invoker command (some guild) channel =
      (if (st.acdefault guild.id command).getD level ≤ map_member_to_ACLevel st bot invoker
       then Except.ok true
       else Except.error
         (ACLFailure.insufficientACLevel ((st.acdefault guild.id command).getD level)
           (map_member_to_ACLevel st bot invoker))) := by
  cases hd : st.acdefault guild.id command with
  | none =>
    simp only [acl2_function, hlvl, if_false, hd, huo, hco, Option.getD]
    rw [roleOverwriteStep_of_no_match st guild.id command _ invoker.roles hro]
  | some custom =>
    simp only [acl2_function, hlvl, if_false, hd, huo, hco, Option.getD]
    rw [roleOverwriteStep_of_no_match st guild.id command _ invoker.roles hro]

/-- With a non-`BOT_OWNER` actor and no matching user or channel overwrite,
`acl2_function` is decided by the first role in `invoker.roles` (list order)
holding a role overwrite, with the level comparison as the fallback. -/
theorem acl2_function_role_step (st : ACLState) (level : ACLevel) (bot : Bot)
    (invoker : Member) (command : String) (guild : Guild) (channel : Channel)
    (hlvl : map_member_to_ACLevel st bot invoker ≠ ACLevel.BOT_OWNER)
    (huo : st.userOverwrite guild.id invoker.id command = none)
    (hco : st.channelOverwrite guild.id channel.id command = none) :
    acl2_function st level bot invoker command (some guild) channel =
      (match invoker.roles.findSome?
          (fun r => (st.roleOverwrite guild.id r.id command).map (fun a => (r.id, a))) with
       | some p =>
         if p.2 then Except.ok true
         else Except.error (ACLFailure.negativeRoleOverwrite p.1)
       | none =>
         if (st.acdefault guild.id command).getD level ≤ map_member_to_ACLevel st bot invoker
         then Except.ok true
         else Except.error
           (ACLFailure.insufficientACLevel ((st.acdefault guild.id command).getD level)
             (map_member_to_ACLevel st bot invoker))) := by
  cases hd : st.acdefault guild.id command with
  | none =>
    simp only [acl2_function, hlvl, if_false, hd, huo, hco, Option.getD]
    rw [roleOverwriteStep_eq_findSome st guild.id command _ invoker.roles]
  | some custom =>
    simp only [acl2_function, hlvl, if_false, hd, huo, hco, Option.getD]
    rw [roleOverwriteStep_eq_findSome st guild.id command _ invoker.roles]

/-- Complete case characterisation of the `acl default add` flow: any outcome
other than `added` leaves the store untouched, and `added` happens exactly
under the source's guards — a valid non-`UNKNOWN` level name, a positive
`can_invoke_command`, an effective command level not above the author's
resolved level, and no pre-existing default — and then inserts the parsed
level. -/
theorem acl_default_add_characterisation (st : ACLState) (bot : Bot) (author : Member)
    (guild : Guild) (channel : Channel) (command : String) (levelName : String) :
    ((acl_default_add st bot author guild channel command levelName).1 ≠
        DefaultAddResult.added →
      (acl_default_add st bot author guild channel command levelName).2 = st)
    ∧ ((acl_default_add st bot author guild channel command levelName).1 =
        DefaultAddResult.added →
      ∃ level, ACLevel.fromName levelName = some level ∧ level ≠ ACLevel.UNKNOWN
        ∧ can_invoke_command st bot (some guild) author channel command = some true
        ∧ (∃ cl, get_true_ACLevel st bot guild.id command = some cl
            ∧ cl ≤ map_member_to_ACLevel st bot author)
        ∧ st.acdefault guild.id command = none
        ∧ (acl_default_add st bot author guild channel command levelName).2 =
            setDefault st guild.id command level) := by
  cases hn : ACLevel.fromName levelName with
  | none => simp [acl_default_add, hn]
  | some level =>
    by_cases hu : level = ACLevel.UNKNOWN
    · simp [acl_default_add, hn, hu]
    · by_cases hc : command ∈ bot.commands
      · cases hg : get_true_ACLevel st bot guild.id command with
        | none => simp [acl_default_add, hn, hu, hc, hg]
        | some command_level =>
          by_cases hi : can_invoke_command st bot (some guild) author channel command =
              some true
          · by_cases hl : map_member_to_ACLevel st bot author < command_level
            · simp [acl_default_add, hn, hu, hc, hg, hi, hl]
            · cases hd : st.acdefault guild.id command with
              | some old => simp [acl_default_add, hn, hu, hc, hg, hi, hl, hd]
              | none =>
                simp only [acl_default_add, hn, hu, hc, hg, hi, hl, hd]
                refine ⟨fun h => absurd rfl h, fun _ => ?_⟩
                exact ⟨level, rfl, hu, trivial,
                  ⟨command_level, rfl, ACLevel.le_of_not_lt hl⟩, trivial, rfl⟩
          · simp [acl_default_add, hn, hu, hc, hg, hi]
      · simp [acl_default_add, hn, hu, hc]

/-! The claims. -/

/-- C1: for every invocation of `acl2_function` with a non-null guild, an
actor whose resolved level is `BOT_OWNER` is allowed, regardless of the
required level and of any user, channel, or role overwrite stored for that
guild and command. -/
theorem C1_bot_owner_bypass (st : ACLState) (level : ACLevel) (bot : Bot)
    (invoker : Member) (command : String) (guild : Guild) (channel : Channel)
    (hlvl : map_member_to_ACLevel st bot invoker = ACLevel.BOT_OWNER) :
    acl2_function st level bot invoker command (some guild) channel = Except.ok true := by
  simp [acl2_function, hlvl]

/-- C1 witness: a member of the bot's owner set is allowed at required level
`BOT_OWNER` against a store holding a negative user overwrite for them. -/
theorem C1_bot_owner_bypass_witness :
    acl2_function
      (ACLState.mk (fun _ _ => none)
        (fun g u c => if g = 1 ∧ u = 42 ∧ c = "repeat" then some false else none)
        (fun _ _ _ => none) (fun _ _ _ => none) (fun _ _ => none))
      ACLevel.BOT_OWNER (Bot.mk [42] [] (fun _ => none))
      (Member.mk 42 [] guildA) "repeat" (some guildA) chanA = Except.ok true :=
  C1_bot_owner_bypass _ ACLevel.BOT_OWNER _ _ "repeat" guildA chanA (by decide)

/-- C2: with a non-null guild and an actor whose resolved level is not
`BOT_OWNER`, a user overwrite for (guild, actor, command) is authoritative:
the function returns true when its allow flag is true and fails with
`NegativeUserOverwrite` when it is false, irrespective of every channel
overwrite, role overwrite, and of the level comparison (the store is
universally quantified, so a positive role overwrite for the same actor
cannot change the outcome). -/
theorem C2_user_overwrite_authoritative (st : ACLState) (level : ACLevel) (bot : Bot)
    (invoker : Member) (command : String) (guild : Guild) (channel : Channel) (allow : Bool)
    (hlvl : map_member_to_ACLevel st bot invoker ≠ ACLevel.BOT_OWNER)
    (huo : st.userOverwrite guild.id invoker.id command = some allow) :
    acl2_function st level bot invoker command (some guild) channel =
      (if allow then Except.ok true
       else Except.error ACLFailure.negativeUserOverwrite) := by
  simp [acl2_function, hlvl, huo]

/-- C2 witness: a negative user overwrite denies an actor even though a
positive role overwrite exists for a role they hold. -/
theorem C2_user_overwrite_authoritative_witness :
    acl2_function
      (ACLState.mk (fun _ _ => none)
        (fun g u c => if g = 1 ∧ u = 20 ∧ c = "repeat" then some false else none)
        (fun _ _ _ => none)
        (fun g r c => if g = 1 ∧ r = 7 ∧ c = "repeat" then some true else none)
        (fun _ _ => none))
      ACLevel.EVERYONE (Bot.mk [42] [] (fun _ => none))
      (Member.mk 20 [Role.mk 7] guildA) "repeat" (some guildA) chanA =
      Except.error ACLFailure.negativeUserOverwrite := by
  have h := C2_user_overwrite_authoritative
    (ACLState.mk (fun _ _ => none)
      (fun g u c => if g = 1 ∧ u = 20 ∧ c = "repeat" then some false else none)
      (fun _ _ _ => none)
      (fun g r c => if g = 1 ∧ r = 7 ∧ c = "repeat" then some true else none)
      (fun _ _ => none))
    ACLevel.EVERYONE (Bot.mk [42] [] (fun _ => none))
    (Member.mk 20 [Role.mk 7] guildA) "repeat" guildA chanA false
    (by decide) (by decide)
  simpa using h

/-- C3: with a non-null guild, a non-`BOT_OWNER` actor, and no matching user,
channel, or role overwrite, the decision is allow exactly when the actor's
resolved level is at least the (possibly overridden) required level, and
otherwise the failure is `InsufficientACLevel` carrying both the required and
the actual level; the boundary is non-strict, so equality allows. -/
theorem C3_level_comparison (st : ACLState) (level : ACLevel) (bot : Bot)
    (invoker : Member) (command : String) (guild : Guild) (channel : Channel)
    (hlvl : map_member_to_ACLevel st bot invoker ≠ ACLevel.BOT_OWNER)
    (huo : st.userOverwrite guild.id invoker.id command = none)
    (hco : st.channelOverwrite guild.id channel.id command = none)
    (hro : ∀ r ∈ invoker.roles, st.roleOverwrite guild.id r.id command = none) :
    acl2_function st level bot invoker command (some guild) channel =
      (if (st.acdefault guild.id command).getD level ≤ map_member_to_ACLevel st bot invoker
       then Except.ok true
       else Except.error
         (ACLFailure.insufficientACLevel ((st.acdefault guild.id command).getD level)
           (map_member_to_ACLevel st bot invoker))) :=
  acl2_function_no_overwrites st level bot invoker command guild channel hlvl huo hco hro

/-- C3 witness: with empty stores, an actor whose resolved level equals the
required level (`EVERYONE`) is allowed. -/
theorem C3_level_comparison_witness :
    acl2_function emptyStores ACLevel.EVERYONE (Bot.mk [42] [] (fun _ => none))
      (Member.mk 20 [] guildA) "ping" (some guildA) chanA = Except.ok true := by
  have h := C3_level_comparison emptyStores ACLevel.EVERYONE
    (Bot.mk [42] [] (fun _ => none)) (Member.mk 20 [] guildA) "ping" guildA chanA
    (by decide) (by decide) (by decide) (by intro r hr; simp [emptyStores])
  simpa [emptyStores] using h

/-- C4: the actor-level resolver applies the strict precedence bot owner,
then guild owner, then the level of the first role — iterating the member's
roles from highest platform priority to lowest, i.e. the platform's role list
reversed — that has a role-level mapping, else `EVERYONE`. -/
theorem C4_resolver_precedence (st : ACLState) (bot : Bot) (m : Member) :
    (m.id ∈ bot.owner_ids → map_member_to_ACLevel st bot m = ACLevel.BOT_OWNER)
    ∧ (m.id ∉ bot.owner_ids → m.id = m.guild.owner_id →
        map_member_to_ACLevel st bot m = ACLevel.GUILD_OWNER)
    ∧ (m.id ∉ bot.owner_ids → m.id ≠ m.guild.owner_id →
        map_member_to_ACLevel st bot m =
          (m.roles.reverse.findSome? (fun r => st.levelMapping m.guild.id r.id)).getD
            ACLevel.EVERYONE) := by
  refine ⟨fun h => by simp [map_member_to_ACLevel, h],
    fun h1 h2 => by
      simp only [map_member_to_ACLevel]
      rw [if_neg h1, if_pos h2],
    fun h1 h2 => ?_⟩
  simp [map_member_to_ACLevel, h1, h2, roleMappingLoop_eq_findSome]

/-- C4 witness: role 7 is mapped to `MOD`, role 8 to `MEMBER`; the platform
ranks role 8 above role 7 (it comes later in the member's role list), so the
resolver — iterating highest priority first — resolves to `MEMBER`, not
`MOD`. -/
theorem C4_resolver_precedence_witness :
    map_member_to_ACLevel
      (ACLState.mk (fun _ _ => none) (fun _ _ _ => none) (fun _ _ _ => none)
        (fun _ _ _ => none)
        (fun g r =>
          if g = 1 ∧ r = 7 then some ACLevel.MOD
          else if g = 1 ∧ r = 8 then some ACLevel.MEMBER else none))
      (Bot.mk [42] [] (fun _ => none))
      (Member.mk 20 [Role.mk 7, Role.mk 8] guildA) = ACLevel.MEMBER := by
  have h := (C4_resolver_precedence
    (ACLState.mk (fun _ _ => none) (fun _ _ _ => none) (fun _ _ _ => none)
      (fun _ _ _ => none)
      (fun g r =>
        if g = 1 ∧ r = 7 then some ACLevel.MOD
        else if g = 1 ∧ r = 8 then some ACLevel.MEMBER else none))
    (Bot.mk [42] [] (fun _ => none))
    (Member.mk 20 [Role.mk 7, Role.mk 8] guildA)).2.2 (by decide) (by decide)
  rw [h]
  rfl

/-- C5: when an `ACDefault` row exists for (guild, command), its level
replaces the caller-supplied required level for the final comparison: a
non-`BOT_OWNER` actor below the hardcoded baseline but at or above the
override level is allowed, provided no user, channel, or role overwrite
matches. -/
theorem C5_default_override_baseline (st : ACLState) (level : ACLevel) (bot : Bot)
    (invoker : Member) (command : String) (guild : Guild) (channel : Channel)
    (L : ACLevel)
    (hd : st.acdefault guild.id command = some L)
    (hlvl : map_member_to_ACLevel st bot invoker ≠ ACLevel.BOT_OWNER)
    (huo : st.userOverwrite guild.id invoker.id command = none)
    (hco : st.channelOverwrite guild.id channel.id command = none)
    (hro : ∀ r ∈ invoker.roles, st.roleOverwrite guild.id r.id command = none)
    (_hbelow : map_member_to_ACLevel st bot invoker < level)
    (habove : L ≤ map_member_to_ACLevel st bot invoker) :
    acl2_function st level bot invoker command (some guild) channel = Except.ok true := by
  rw [acl2_function_no_overwrites st level bot invoker command guild channel hlvl huo hco hro]
  simp [hd, habove]

/-- C5 witness: command baseline `MOD`, override `EVERYONE`, actor resolved
to `MEMBER` via a mapped role: below the baseline, at or above the override,
hence allowed. -/
theorem C5_default_override_baseline_witness :
    acl2_function
      (ACLState.mk
        (fun g c => if g = 1 ∧ c = "repeat" then some ACLevel.EVERYONE else none)
        (fun _ _ _ => none) (fun _ _ _ => none) (fun _ _ _ => none)
        (fun g r => if g = 1 ∧ r = 7 then some ACLevel.MEMBER else none))
      ACLevel.MOD (Bot.mk [42] [] (fun _ => none))
      (Member.mk 20 [Role.mk 7] guildA) "repeat" (some guildA) chanA =
      Except.ok true :=
  C5_default_override_baseline
    (ACLState.mk
      (fun g c => if g = 1 ∧ c = "repeat" then some ACLevel.EVERYONE else none)
      (fun _ _ _ => none) (fun _ _ _ => none) (fun _ _ _ => none)
      (fun g r => if g = 1 ∧ r = 7 then some ACLevel.MEMBER else none))
    ACLevel.MOD (Bot.mk [42] [] (fun _ => none))
    (Member.mk 20 [Role.mk 7] guildA) "repeat" guildA chanA ACLevel.EVERYONE
    (by decide) (by decide) (by decide) (by decide)
    (by decide) (by decide) (by decide)

/-- C10: in the role-overwrite step the actor's roles are iterated in the
platform's list order — lowest priority first, everyone role included — and
the first role holding an overwrite decides, so of two overwritten roles the
lowest-priority one wins; this is the opposite direction from the resolver,
which maps the actor to a base level by iterating the reversed list (highest
priority first). -/
theorem C10_role_overwrite_iteration_order (st : ACLState) (level : ACLevel) (bot : Bot)
    (invoker : Member) (command : String) (guild : Guild) (channel : Channel)
    (hlvl : map_member_to_ACLevel st bot invoker ≠ ACLevel.BOT_OWNER)
    (huo : st.userOverwrite guild.id invoker.id command = none)
    (hco : st.channelOverwrite guild.id channel.id command = none) :
    (acl2_function st level bot invoker command (some guild) channel =
      (match invoker.roles.findSome?
          (fun r => (st.roleOverwrite guild.id r.id command).map (fun a => (r.id, a))) with
       | some p =>
         if p.2 then Except.ok true
         else Except.error (ACLFailure.negativeRoleOverwrite p.1)
       | none =>
         if (st.acdefault guild.id command).getD level ≤ map_member_to_ACLevel st bot invoker
         then Except.ok true
         else Except.error
           (ACLFailure.insufficientACLevel ((st.acdefault guild.id command).getD level)
             (map_member_to_ACLevel st bot invoker))))
    ∧ (invoker.id ∉ bot.owner_ids → invoker.id ≠ invoker.guild.owner_id →
        map_member_to_ACLevel st bot invoker =
          (invoker.roles.reverse.findSome?
            (fun r => st.levelMapping invoker.guild.id r.id)).getD ACLevel.EVERYONE) := by
  refine ⟨acl2_function_role_step st level bot invoker command guild channel hlvl huo hco,
    fun h1 h2 => ?_⟩
  simp [map_member_to_ACLevel, h1, h2, roleMappingLoop_eq_findSome]

/-- C10 witness: roles 7 (lower priority) and 8 (higher priority) both hold
overwrites for the command — role 7 denies, role 8 allows; the role step
follows list order, so the lowest-priority role's negative overwrite wins. -/
theorem C10_role_overwrite_iteration_order_witness :
    acl2_function
      (ACLState.mk (fun _ _ => none) (fun _ _ _ => none) (fun _ _ _ => none)
        (fun g r c =>
          if g = 1 ∧ r = 7 ∧ c = "repeat" then some false
          else if g = 1 ∧ r = 8 ∧ c = "repeat" then some true else none)
        (fun _ _ => none))
      ACLevel.EVERYONE (Bot.mk [42] [] (fun _ => none))
      (Member.mk 20 [Role.mk 7, Role.mk 8] guildA) "repeat" (some guildA) chanA =
      Except.error (ACLFailure.negativeRoleOverwrite 7) := by
  have h := (C10_role_overwrite_iteration_order
    (ACLState.mk (fun _ _ => none) (fun _ _ _ => none) (fun _ _ _ => none)
      (fun g r c =>
        if g = 1 ∧ r = 7 ∧ c = "repeat" then some false
        else if g = 1 ∧ r = 8 ∧ c = "repeat" then some true else none)
      (fun _ _ => none))
    ACLevel.EVERYONE (Bot.mk [42] [] (fun _ => none))
    (Member.mk 20 [Role.mk 7, Role.mk 8] guildA) "repeat" guildA chanA
    (by decide) (by decide) (by decide)).1
  rw [h]
  rfl

/-- C6 counterexample: the guild owner sets the default of `ping` (hardcoded
`EVERYONE`, invokable by them) to `BOT_OWNER`, and the flow accepts it and
stores it — `acl_default_add` has no owner-level rejection, unlike
`acl_mapping_add`. -/
theorem C6_counterexample :
    (acl_default_add emptyStores botPing guildOwnerMember guildA chanA
        "ping" "BOT_OWNER").1 = DefaultAddResult.added
    ∧ (acl_default_add emptyStores botPing guildOwnerMember guildA chanA
        "ping" "BOT_OWNER").2.acdefault 1 "ping" = some ACLevel.BOT_OWNER := by
  decide

/-- C6 amended: the `acl default add` flow rejects a level name resolving to
`UNKNOWN` without touching the store, and consequently never stores
`UNKNOWN`; it has no check against `BOT_OWNER` or `GUILD_OWNER`, which it
accepts whenever the flow's other guards pass. -/
theorem C6_default_add_level_validation (st : ACLState) (bot : Bot) (author : Member)
    (guild : Guild) (channel : Channel) (command : String) (levelName : String) :
    (ACLevel.fromName levelName = some ACLevel.UNKNOWN →
      acl_default_add st bot author guild channel command levelName =
        (DefaultAddResult.invalidLevel, st))
    ∧ (∀ g c,
        (acl_default_add st bot author guild channel command levelName).2.acdefault g c =
          st.acdefault g c
        ∨ (acl_default_add st bot author guild channel command levelName).2.acdefault g c ≠
            some ACLevel.UNKNOWN) := by
  constructor
  · intro hn
    simp [acl_default_add, hn]
  · intro g c
    by_cases hres : (acl_default_add st bot author guild channel command levelName).1 =
        DefaultAddResult.added
    · obtain ⟨level, hn, hu, _, _, hd, hstate⟩ :=
        (acl_default_add_characterisation st bot author guild channel command levelName).2
          hres
      rw [hstate]
      by_cases hgc : g = guild.id ∧ c = command
      · right
        simp [setDefault, hgc, hu]
      · left
        simp [setDefault, hgc]
    · left
      rw [(acl_default_add_characterisation st bot author guild channel command
        levelName).1 hres]

/-- C6 witness: the level name `UNKNOWN` is refused and the store is left
unchanged. -/
theorem C6_default_add_level_validation_witness :
    acl_default_add emptyStores botPing guildOwnerMember guildA chanA "ping" "UNKNOWN" =
      (DefaultAddResult.invalidLevel, emptyStores) :=
  (C6_default_add_level_validation emptyStores botPing guildOwnerMember guildA chanA
    "ping" "UNKNOWN").1 (by decide)

/-- C7 counterexample: command `kick` has effective level `ADMIN`; an actor
whose resolved level is exactly `ADMIN` (not strictly above it) sets its
default to `ADMIN` (a target level not strictly below their own), and the
flow accepts and stores the override. -/
theorem C7_counterexample :
    map_member_to_ACLevel adminMappingStore botKick adminMember = ACLevel.ADMIN
    ∧ get_true_ACLevel adminMappingStore botKick 1 "kick" = some ACLevel.ADMIN
    ∧ (acl_default_add adminMappingStore botKick adminMember guildA chanA
        "kick" "ADMIN").1 = DefaultAddResult.added
    ∧ (acl_default_add adminMappingStore botKick adminMember guildA chanA
        "kick" "ADMIN").2.acdefault 1 "kick" = some ACLevel.ADMIN
    ∧ ¬ ACLevel.ADMIN < ACLevel.ADMIN := by
  decide

/-- C7 amended: a command-default override is created through the flow only
when the actor can currently invoke the command (full decision engine) and
the command's current effective level is at most — not strictly below — the
actor's resolved level; the target level is never compared against the
actor's level.  Whenever any guard fails, the store is unmodified. -/
theorem C7_default_add_guard (st : ACLState) (bot : Bot) (author : Member)
    (guild : Guild) (channel : Channel) (command : String) (levelName : String) :
    ((acl_default_add st bot author guild channel command levelName).1 =
        DefaultAddResult.added →
      can_invoke_command st bot (some guild) author channel command = some true
      ∧ ∃ cl, get_true_ACLevel st bot guild.id command = some cl
          ∧ cl ≤ map_member_to_ACLevel st bot author)
    ∧ ((acl_default_add st bot author guild channel command levelName).1 ≠
        DefaultAddResult.added →
      (acl_default_add st bot author guild channel command levelName).2 = st) := by
  constructor
  · intro h
    obtain ⟨level, _, _, hi, hcl, _, _⟩ :=
      (acl_default_add_characterisation st bot author guild channel command levelName).2 h
    exact ⟨hi, hcl⟩
  · exact (acl_default_add_characterisation st bot author guild channel command
      levelName).1

/-- C7 witness: in the `kick`/`ADMIN` scenario the override is created, so
the guard conclusions hold there. -/
theorem C7_default_add_guard_witness :
    can_invoke_command adminMappingStore botKick (some guildA) adminMember chanA "kick" =
      some true
    ∧ ∃ cl, get_true_ACLevel adminMappingStore botKick guildA.id "kick" = some cl
        ∧ cl ≤ map_member_to_ACLevel adminMappingStore botKick adminMember :=
  (C7_default_add_guard adminMappingStore botKick adminMember guildA chanA
    "kick" "ADMIN").1 (by decide)

/-- C8 counterexample: command `mystery` is registered but carries no
hardcoded level and no override, so it has no effective level; the invoker is
a bot owner, whom the decision engine allows under every one of the eight
possible required levels — yet `can_invoke_command` returns `some false`
without running the engine. -/
theorem C8_counterexample :
    can_invoke_command emptyStores (Bot.mk [42] ["mystery"] (fun _ => none))
      (some guildA) (Member.mk 42 [] guildA) chanA "mystery" = some false
    ∧ acl2_function emptyStores ACLevel.UNKNOWN (Bot.mk [42] ["mystery"] (fun _ => none))
        (Member.mk 42 [] guildA) "mystery" (some guildA) chanA = Except.ok true
    ∧ acl2_function emptyStores ACLevel.EVERYONE (Bot.mk [42] ["mystery"] (fun _ => none))
        (Member.mk 42 [] guildA) "mystery" (some guildA) chanA = Except.ok true
    ∧ acl2_function emptyStores ACLevel.MEMBER (Bot.mk [42] ["mystery"] (fun _ => none))
        (Member.mk 42 [] guildA) "mystery" (some guildA) chanA = Except.ok true
    ∧ acl2_function emptyStores ACLevel.SUBMOD (Bot.mk [42] ["mystery"] (fun _ => none))
        (Member.mk 42 [] guildA) "mystery" (some guildA) chanA = Except.ok true
    ∧ acl2_function emptyStores ACLevel.MOD (Bot.mk [42] ["mystery"] (fun _ => none))
        (Member.mk 42 [] guildA) "mystery" (some guildA) chanA = Except.ok true
    ∧ acl2_function emptyStores ACLevel.ADMIN (Bot.mk [42] ["mystery"] (fun _ => none))
        (Member.mk 42 [] guildA) "mystery" (some guildA) chanA = Except.ok true
    ∧ acl2_function emptyStores ACLevel.GUILD_OWNER
        (Bot.mk [42] ["mystery"] (fun _ => none))
        (Member.mk 42 [] guildA) "mystery" (some guildA) chanA = Except.ok true
    ∧ acl2_function emptyStores ACLevel.BOT_OWNER
        (Bot.mk [42] ["mystery"] (fun _ => none))
        (Member.mk 42 [] guildA) "mystery" (some guildA) chanA = Except.ok true :=
  ⟨by decide, rfl, rfl, rfl, rfl, rfl, rfl, rfl, rfl⟩

/-- C8 amended: `can_invoke_command` returns `none` iff the context has no
guild; with a guild, when the command has an effective level it returns the
boolean outcome of the decision engine at that level (true on allow, false on
any ACL denial), and when the command has no effective level it returns
`some false` without consulting the engine. -/
theorem C8_can_invoke_semantics (st : ACLState) (bot : Bot) (guild : Option Guild)
    (invoker : Member) (channel : Channel) (command : String) :
    (can_invoke_command st bot guild invoker channel command = none ↔ guild = none)
    ∧ (∀ g L, guild = some g → get_true_ACLevel st bot g.id command = some L →
        can_invoke_command st bot guild invoker channel command =
          some (isOk (acl2_function st L bot invoker command (some g) channel)))
    ∧ (∀ g, guild = some g → get_true_ACLevel st bot g.id command = none →
        can_invoke_command st bot guild invoker channel command = some false) := by
  refine ⟨?_, ?_, ?_⟩
  · cases guild with
    | none => simp [can_invoke_command]
    | some g =>
      simp only [can_invoke_command]
      cases h : get_true_ACLevel st bot g.id command <;> simp
  · intro g L hg hL
    subst hg
    simp [can_invoke_command, hL]
  · intro g hg hL
    subst hg
    simp [can_invoke_command, hL]

/-- C8 witness: with command `ping` hardcoded to `EVERYONE` and empty stores,
the guild owner's invocation check returns exactly the engine's positive
outcome. -/
theorem C8_can_invoke_semantics_witness :
    can_invoke_command emptyStores botPing (some guildA) guildOwnerMember chanA "ping" =
      some (isOk (acl2_function emptyStores ACLevel.EVERYONE botPing guildOwnerMember
        "ping" (some guildA) chanA)) :=
  (C8_can_invoke_semantics emptyStores botPing (some guildA) guildOwnerMember chanA
    "ping").2.1 guildA ACLevel.EVERYONE rfl (by decide)

/-- C9: the resolved-level cache has a 10-second expiry: a resolution less
than 10 seconds after the one that populated the cache returns the cached
value even if the role-to-level mapping changed in between (`st2` is
arbitrary), and a resolution more than 10 seconds after it recomputes from
the changed mapping. -/
theorem C9_cache_ttl (st1 st2 : ACLState) (bot : Bot) (m : Member) (t0 t1 : Nat) :
    (t1 < t0 + 10 →
      (cachedResolve st2 bot m (some (cachedResolve st1 bot m none t0).2) t1).1 =
        (cachedResolve st1 bot m none t0).1)
    ∧ (t0 + 10 < t1 →
      (cachedResolve st2 bot m (some (cachedResolve st1 bot m none t0).2) t1).1 =
        map_member_to_ACLevel st2 bot m) := by
  constructor
  · intro h
    simp [cachedResolve, h]
  · intro h
    have h2 : ¬ t1 < t0 + 10 := by omega
    simp [cachedResolve, h2]

/-- C9 witness: the resolution cached at time 0 under a store that maps the
actor's role to `ADMIN` is returned unchanged at time 5 even against the
empty store, and at time 11 the empty store's `EVERYONE` is returned. -/
theorem C9_cache_ttl_witness :
    (cachedResolve emptyStores botKick adminMember
        (some (cachedResolve adminMappingStore botKick adminMember none 0).2) 5).1 =
      (cachedResolve adminMappingStore botKick adminMember none 0).1
    ∧ (cachedResolve emptyStores botKick adminMember
        (some (cachedResolve adminMappingStore botKick adminMember none 0).2) 11).1 =
      map_member_to_ACLevel emptyStores botKick adminMember :=
  And.intro
    ((C9_cache_ttl adminMappingStore emptyStores botKick adminMember 0 5).1 (by decide))
    ((C9_cache_ttl adminMappingStore emptyStores botKick adminMember 0 11).2 (by decide))

end Pie
